import Mathlib

/-!
Shallow embedding of the `gomodel` persistence layer (badpetbot/gomodel):
three entity types (`Server`, `ServerMember`, `ModelTemplate`), each with
validated `Create` / `Update` repository operations and a cache-aside
lookup (`CacheGetServer` / `CacheGetServerMember` / `CacheGetModelTemplate`)
with optional negative caching.

Effects are made explicit: external collaborators (redis client, mgo store,
JSON codec) are oracle functions supplied in an environment record, and each
operation returns, besides its Go return values, the trace of synchronous
external calls it made and the background tasks it dispatched with `go`.
-/

namespace GoModel

/-- Errors returned by the Go code: validation failures (carrying the failing
field names), `mgo.ErrNotFound`, store errors and cache-client errors. -/
inductive GoError where
  | validation : List String → GoError
  | notFound : GoError
  | store : String → GoError
  | cache : String → GoError
deriving DecidableEq, Repr

/-- A BSON value as used in `bson.M` update documents
(`map[string]interface{}` in Go). -/
inductive BsonValue where
  | str : String → BsonValue
  | int : Int → BsonValue
  | time : Nat → BsonValue
  | boolean : Bool → BsonValue
  | doc : List (String × BsonValue) → BsonValue

/-- `bson.M`: a string-keyed map of BSON values, modelled as an association
list with Go-map insert-or-replace semantics. -/
def BsonM := List (String × BsonValue)

/-- Go map read `m[k]`. -/
def bsonGet (m : BsonM) (k : String) : Option BsonValue :=
  match m with
  | [] => none
  | (k', v) :: rest => if k' = k then some v else bsonGet rest k

/-- Go map write `m[k] = v`: replaces an existing binding or appends. -/
def bsonSet (m : BsonM) (k : String) (v : BsonValue) : BsonM :=
  match m with
  | [] => [(k, v)]
  | (k', v') :: rest => if k' = k then (k, v) :: rest else (k', v') :: bsonSet rest k v

/-- Whether a BSON value is a sub-document (`bson.M`); the type assertion
`updates["$set"].(bson.M)` in `Update` succeeds exactly on these. -/
def BsonValue.isDoc : BsonValue → Bool
  | .doc _ => true
  | _ => false

/-- `bson.ObjectId` is a string type in mgo; the zero value is `""`. -/
abbrev ObjectId := String

/-- Models the external mgo `bson.NewObjectId`: a 12-byte id laid out as a
4-byte big-endian timestamp, 3 machine bytes, 2 pid bytes and a 3-byte
big-endian counter. The generator inputs are parameters of the model. -/
def newObjectId (ts machine pid counter : Nat) : ObjectId :=
  String.mk [
    Char.ofNat (ts / 16777216 % 256), Char.ofNat (ts / 65536 % 256),
    Char.ofNat (ts / 256 % 256), Char.ofNat (ts % 256),
    Char.ofNat (machine / 65536 % 256), Char.ofNat (machine / 256 % 256),
    Char.ofNat (machine % 256),
    Char.ofNat (pid / 256 % 256), Char.ofNat (pid % 256),
    Char.ofNat (counter / 65536 % 256), Char.ofNat (counter / 256 % 256),
    Char.ofNat (counter % 256)]

/-- `time.Time`, abstracted to an instant count; the Go zero value is `0`. -/
abbrev Time := Nat

/-- One nanosecond, the unit of Go `time.Duration`. -/
def timeNanosecond : Nat := 1

/-- `time.Second` in nanoseconds. -/
def timeSecond : Nat := 1000000000

/-- ServerClientName is the name of the MgoDriver to use for Server. -/
def ServerClientName : String := "main"

/-- ServerDBName is the name of the database to use for Server. -/
def ServerDBName : String := "badpetbot"

/-- ServerColName is the name of the collection to use for Server. -/
def ServerColName : String := "servers"

/-- CacheTTL is the time documents can remain in cache (120s). -/
def CacheTTL : Nat := 120 * timeSecond

/-- NegCacheTTL is the time neg-cache can remain in cache (60s). -/
def NegCacheTTL : Nat := 60 * timeSecond

/-- ServerMemberClientName is the name of the MgoDriver to use for ServerMember. -/
def ServerMemberClientName : String := "main"

/-- ServerMemberDBName is the name of the database to use for ServerMember. -/
def ServerMemberDBName : String := "badpetbot"

/-- ServerMemberColName is the name of the collection to use for ServerMember. -/
def ServerMemberColName : String := "server_members"

/-- ModelTemplateClientName is the name of the MgoDriver to use for ModelTemplate. -/
def ModelTemplateClientName : String := "main"

/-- ModelTemplateDBName is the name of the database to use for ModelTemplate. -/
def ModelTemplateDBName : String := "badpetbot"

/-- ModelTemplateColName is the name of the collection to use for ModelTemplate. -/
def ModelTemplateColName : String := "model_templates"

/-- A store operation issued through the mgo collection handle. -/
inductive StoreOp (α : Type) where
  | insert : α → StoreOp α
  | updateById : ObjectId → BsonM → StoreOp α
  | removeById : ObjectId → StoreOp α

/-- A redis `SET key value TTL` command. -/
structure RedisSet where
  key : String
  value : String
  ttl : Nat

/-- A background task dispatched with `go` on the cache-get path. -/
inductive CacheTask (α : Type) where
  | fillCache : String → α → CacheTask α
  | fillNegCache : String → CacheTask α

/-- Result of a cache-get call: the Go return values (entity pointer and
error) together with the trace of redis keys read, store queries issued,
and background tasks dispatched, each in program order. -/
structure CacheGetRes (α : Type) where
  entity : Option α
  error : Option GoError
  reads : List String
  queries : List (String × String)
  tasks : List (CacheTask α)

/-- The external collaborators of a cache-get call: the redis client's `GET`
(absence is an empty string, per the cache collaborator contract), mgo's
`Find(bson.M{key: value}).One` (returning the filled-in struct and an
optional error) and `json.Unmarshal` into a freshly allocated struct. -/
structure CacheEnv (α : Type) where
  redisGet : String → Except GoError String
  findOne : String → String → α × Option GoError
  unmarshal : String → α × Option GoError

/-- Server is a single Discord guild. -/
structure Server where
  ID : ObjectId
  DiscordID : String
  CreatedAt : Time
  UpdatedAt : Time
deriving DecidableEq, Repr

/-- Validate runs validations against the model's fields: `required` on
ID, DiscordID, CreatedAt and UpdatedAt (non-zero value of the field type). -/
def Server.Validate (s : Server) : Option GoError :=
  let fails :=
    (if s.ID = "" then ["ID"] else []) ++
    (if s.DiscordID = "" then ["DiscordID"] else []) ++
    (if s.CreatedAt = 0 then ["CreatedAt"] else []) ++
    (if s.UpdatedAt = 0 then ["UpdatedAt"] else [])
  if fails.isEmpty then none else some (.validation fails)

/-- Create: assigns a fresh id and both timestamps, validates, and on success
inserts. Returns the mutated entity, the Go error, and the store ops issued;
`insertErr` is the oracle outcome of the `Insert` call. -/
def Server.create (s : Server) (ts machine pid counter : Nat) (now : Time)
    (insertErr : Option GoError) : Server × Option GoError × List (StoreOp Server) :=
  let s1 : Server := { s with ID := newObjectId ts machine pid counter,
                              CreatedAt := now, UpdatedAt := now }
  match s1.Validate with
  | some e => (s1, some e, [])
  | none => (s1, insertErr, [.insert s1])

/-- Update: sets UpdatedAt, ensures a `$set` sub-document and merges the
timestamp into it via the unchecked assertion `updates["$set"].(bson.M)`
(modelled as `none` on assertion failure, i.e. a panic), validates, and on
success issues `UpdateId`. Returns the mutated entity, the mutated updates
map, the Go error and the store ops issued. -/
def Server.update (s : Server) (now : Time) (updates : BsonM)
    (updErr : Option GoError) :
    Option (Server × BsonM × Option GoError × List (StoreOp Server)) :=
  let s1 : Server := { s with UpdatedAt := now }
  let updates1 := match bsonGet updates "$set" with
    | some _ => updates
    | none => bsonSet updates "$set" (.doc [])
  match bsonGet updates1 "$set" with
  | some (.doc m) =>
    let updates2 := bsonSet updates1 "$set" (.doc (bsonSet m "updated_at" (.time now)))
    some (match s1.Validate with
      | some e => (s1, updates2, some e, [])
      | none => (s1, updates2, updErr, [.updateById s1.ID updates2]))
  | some _ => none
  | none => none

/-- The cache key built in `CacheGetServer`:
client name, db name, collection name, lookup field and lookup value
joined with `":"`. -/
def serverCacheKey (key value : String) : String :=
  ServerClientName ++ ":" ++ ServerDBName ++ ":" ++ ServerColName ++ ":" ++ key ++ ":" ++ value

/-- The tail of `CacheGetServer` after the negative-cache check: positive
cache lookup, store fallback, and the fill decision. -/
def cacheGetServerTail (env : CacheEnv Server) (key value : String)
    (negCache : Bool) : CacheGetRes Server :=
  let cacheKey := serverCacheKey key value
  match env.redisGet cacheKey with
  | .error e => ⟨none, some e, [cacheKey], [], []⟩
  | .ok r =>
    if r ≠ "" then
      let p := env.unmarshal r
      ⟨some p.1, p.2, [cacheKey], [], []⟩
    else
      let q := env.findOne key value
      let tasks :=
        if q.2 = some GoError.notFound ∧ negCache = true then
          [CacheTask.fillNegCache cacheKey]
        else if q.2 ≠ none then
          [CacheTask.fillCache cacheKey q.1]
        else []
      ⟨some q.1, q.2, [cacheKey], [(key, value)], tasks⟩

/-- CacheGetServer attempts to find a Server by the key and value specified
in cache before looking in the database and setting cache if found. If
`negCache` is true, will check for neg-cache first, and also set neg-cache
if the document was not found in the database either. -/
def CacheGetServer (env : CacheEnv Server) (key value : String)
    (negCache : Bool) : CacheGetRes Server :=
  let cacheKey := serverCacheKey key value
  if negCache then
    match env.redisGet ("neg:" ++ cacheKey) with
    | .error e => ⟨none, some e, ["neg:" ++ cacheKey], [], []⟩
    | .ok r =>
      if r ≠ "" then ⟨none, some GoError.notFound, ["neg:" ++ cacheKey], [], []⟩
      else
        let rest := cacheGetServerTail env key value true
        { rest with reads := ("neg:" ++ cacheKey) :: rest.reads }
  else cacheGetServerTail env key value false

/-- The background positive-cache fill for Server: serialize (a marshal
error is logged, not fatal) and `SET` under the given key with `CacheTTL`. -/
def fillCacheServer (marshal : Server → String × Option GoError)
    (key : String) (value : Server) : RedisSet :=
  ⟨key, (marshal value).1, CacheTTL⟩

/-- The background negative-cache fill for Server: `SET "neg:"+key "neg"`
with `NegCacheTTL`. -/
def fillNegCacheServer (key : String) : RedisSet :=
  ⟨"neg:" ++ key, "neg", NegCacheTTL⟩

/-- ServerMember is a single Discord guild member, with ownership
relationship ids and embeddable (never-persisted) related members. The
embeddables make the type recursive, hence an inductive with one
constructor carrying the struct's fields in declaration order. -/
inductive ServerMember where
  | mk : (id : ObjectId) → (discordUserId : String) → (discordServerId : String) →
      (discordMemberId : String) → (createdAt : Time) → (updatedAt : Time) →
      (ownerDiscordId : String) → (secOwnerDiscordIds : List String) →
      (owner : Option ServerMember) → (secOwners : List ServerMember) → ServerMember

/-- Field accessor for ServerMember.ID. -/
def ServerMember.ID : ServerMember → ObjectId
  | .mk i _ _ _ _ _ _ _ _ _ => i

/-- Field accessor for ServerMember.DiscordUserID. -/
def ServerMember.DiscordUserID : ServerMember → String
  | .mk _ u _ _ _ _ _ _ _ _ => u

/-- Field accessor for ServerMember.DiscordServerID. -/
def ServerMember.DiscordServerID : ServerMember → String
  | .mk _ _ s _ _ _ _ _ _ _ => s

/-- Field accessor for ServerMember.DiscordMemberID. -/
def ServerMember.DiscordMemberID : ServerMember → String
  | .mk _ _ _ m _ _ _ _ _ _ => m

/-- Field accessor for ServerMember.CreatedAt. -/
def ServerMember.CreatedAt : ServerMember → Time
  | .mk _ _ _ _ c _ _ _ _ _ => c

/-- Field accessor for ServerMember.UpdatedAt. -/
def ServerMember.UpdatedAt : ServerMember → Time
  | .mk _ _ _ _ _ u _ _ _ _ => u

/-- Assignment `this.ID = v` for ServerMember. -/
def ServerMember.setID : ServerMember → ObjectId → ServerMember
  | .mk _ b c d e f g h i j, v => .mk v b c d e f g h i j

/-- Assignment `this.CreatedAt = v` for ServerMember. -/
def ServerMember.setCreatedAt : ServerMember → Time → ServerMember
  | .mk a b c d _ f g h i j, v => .mk a b c d v f g h i j

/-- Assignment `this.UpdatedAt = v` for ServerMember. -/
def ServerMember.setUpdatedAt : ServerMember → Time → ServerMember
  | .mk a b c d e _ g h i j, v => .mk a b c d e v g h i j

/-- Validate for ServerMember: `required` on ID, DiscordUserID,
DiscordServerID, DiscordMemberID, CreatedAt, UpdatedAt; the relationship
and embeddable fields carry `validate:"-"` and are skipped. -/
def ServerMember.Validate (s : ServerMember) : Option GoError :=
  let fails :=
    (if s.ID = "" then ["ID"] else []) ++
    (if s.DiscordUserID = "" then ["DiscordUserID"] else []) ++
    (if s.DiscordServerID = "" then ["DiscordServerID"] else []) ++
    (if s.DiscordMemberID = "" then ["DiscordMemberID"] else []) ++
    (if s.CreatedAt = 0 then ["CreatedAt"] else []) ++
    (if s.UpdatedAt = 0 then ["UpdatedAt"] else [])
  if fails.isEmpty then none else some (.validation fails)

/-- Create for ServerMember: fresh id, both timestamps, validate, insert. -/
def ServerMember.create (s : ServerMember) (ts machine pid counter : Nat)
    (now : Time) (insertErr : Option GoError) :
    ServerMember × Option GoError × List (StoreOp ServerMember) :=
  let s1 := ((s.setID (newObjectId ts machine pid counter)).setCreatedAt now).setUpdatedAt now
  match s1.Validate with
  | some e => (s1, some e, [])
  | none => (s1, insertErr, [.insert s1])

/-- Update for ServerMember, mirroring `Server.update`. -/
def ServerMember.update (s : ServerMember) (now : Time) (updates : BsonM)
    (updErr : Option GoError) :
    Option (ServerMember × BsonM × Option GoError × List (StoreOp ServerMember)) :=
  let s1 := s.setUpdatedAt now
  let updates1 := match bsonGet updates "$set" with
    | some _ => updates
    | none => bsonSet updates "$set" (.doc [])
  match bsonGet updates1 "$set" with
  | some (.doc m) =>
    let updates2 := bsonSet updates1 "$set" (.doc (bsonSet m "updated_at" (.time now)))
    some (match s1.Validate with
      | some e => (s1, updates2, some e, [])
      | none => (s1, updates2, updErr, [.updateById s1.ID updates2]))
  | some _ => none
  | none => none

/-- The cache key built in `CacheGetServerMember`. -/
def serverMemberCacheKey (key value : String) : String :=
  ServerMemberClientName ++ ":" ++ ServerMemberDBName ++ ":" ++ ServerMemberColName ++
    ":" ++ key ++ ":" ++ value

/-- The tail of `CacheGetServerMember` after the negative-cache check. -/
def cacheGetServerMemberTail (env : CacheEnv ServerMember) (key value : String)
    (negCache : Bool) : CacheGetRes ServerMember :=
  let cacheKey := serverMemberCacheKey key value
  match env.redisGet cacheKey with
  | .error e => ⟨none, some e, [cacheKey], [], []⟩
  | .ok r =>
    if r ≠ "" then
      let p := env.unmarshal r
      ⟨some p.1, p.2, [cacheKey], [], []⟩
    else
      let q := env.findOne key value
      let tasks :=
        if q.2 = some GoError.notFound ∧ negCache = true then
          [CacheTask.fillNegCache cacheKey]
        else if q.2 ≠ none then
          [CacheTask.fillCache cacheKey q.1]
        else []
      ⟨some q.1, q.2, [cacheKey], [(key, value)], tasks⟩

/-- CacheGetServerMember: cache-aside lookup for ServerMember, with optional
negative caching, mirroring `CacheGetServer`. -/
def CacheGetServerMember (env : CacheEnv ServerMember) (key value : String)
    (negCache : Bool) : CacheGetRes ServerMember :=
  let cacheKey := serverMemberCacheKey key value
  if negCache then
    match env.redisGet ("neg:" ++ cacheKey) with
    | .error e => ⟨none, some e, ["neg:" ++ cacheKey], [], []⟩
    | .ok r =>
      if r ≠ "" then ⟨none, some GoError.notFound, ["neg:" ++ cacheKey], [], []⟩
      else
        let rest := cacheGetServerMemberTail env key value true
        { rest with reads := ("neg:" ++ cacheKey) :: rest.reads }
  else cacheGetServerMemberTail env key value false

/-- The background positive-cache fill for ServerMember. -/
def fillCacheServerMember (marshal : ServerMember → String × Option GoError)
    (key : String) (value : ServerMember) : RedisSet :=
  ⟨key, (marshal value).1, CacheTTL⟩

/-- The background negative-cache fill for ServerMember. -/
def fillNegCacheServerMember (key : String) : RedisSet :=
  ⟨"neg:" ++ key, "neg", NegCacheTTL⟩

/-- ModelTemplate: the template model, with a defaulted field, belongs-to
relationship ids and embeddable related templates (recursive). -/
inductive ModelTemplate where
  | mk : (id : ObjectId) → (createdAt : Time) → (updatedAt : Time) →
      (fieldWithDefault : Int) → (relatedTemplateId : Option ObjectId) →
      (relatedTemplateIds : List ObjectId) → (relatedTemplate : Option ModelTemplate) →
      (relatedTemplates : List ModelTemplate) → ModelTemplate

/-- Field accessor for ModelTemplate.ID. -/
def ModelTemplate.ID : ModelTemplate → ObjectId
  | .mk i _ _ _ _ _ _ _ => i

/-- Field accessor for ModelTemplate.CreatedAt. -/
def ModelTemplate.CreatedAt : ModelTemplate → Time
  | .mk _ c _ _ _ _ _ _ => c

/-- Field accessor for ModelTemplate.UpdatedAt. -/
def ModelTemplate.UpdatedAt : ModelTemplate → Time
  | .mk _ _ u _ _ _ _ _ => u

/-- Field accessor for ModelTemplate.FieldWithDefault. -/
def ModelTemplate.FieldWithDefault : ModelTemplate → Int
  | .mk _ _ _ f _ _ _ _ => f

/-- Assignment `this.ID = v` for ModelTemplate. -/
def ModelTemplate.setID : ModelTemplate → ObjectId → ModelTemplate
  | .mk _ b c d e f g h, v => .mk v b c d e f g h

/-- Assignment `this.CreatedAt = v` for ModelTemplate. -/
def ModelTemplate.setCreatedAt : ModelTemplate → Time → ModelTemplate
  | .mk a _ c d e f g h, v => .mk a v c d e f g h

/-- Assignment `this.UpdatedAt = v` for ModelTemplate. -/
def ModelTemplate.setUpdatedAt : ModelTemplate → Time → ModelTemplate
  | .mk a b _ d e f g h, v => .mk a b v d e f g h

/-- Assignment `this.FieldWithDefault = v` for ModelTemplate. -/
def ModelTemplate.setFieldWithDefault : ModelTemplate → Int → ModelTemplate
  | .mk a b c _ e f g h, v => .mk a b c v e f g h

/-- Validate for ModelTemplate: `required` on ID, CreatedAt, UpdatedAt and
`gt=2,lt=10` on FieldWithDefault; the rest carries `validate:"-"`. -/
def ModelTemplate.Validate (s : ModelTemplate) : Option GoError :=
  let fails :=
    (if s.ID = "" then ["ID"] else []) ++
    (if s.CreatedAt = 0 then ["CreatedAt"] else []) ++
    (if s.UpdatedAt = 0 then ["UpdatedAt"] else []) ++
    (if s.FieldWithDefault > 2 ∧ s.FieldWithDefault < 10 then [] else ["FieldWithDefault"])
  if fails.isEmpty then none else some (.validation fails)

/-- Create for ModelTemplate: fresh id, both timestamps, the default
`FieldWithDefault = 7`, validate, insert. -/
def ModelTemplate.create (s : ModelTemplate) (ts machine pid counter : Nat)
    (now : Time) (insertErr : Option GoError) :
    ModelTemplate × Option GoError × List (StoreOp ModelTemplate) :=
  let s1 := (((s.setID (newObjectId ts machine pid counter)).setCreatedAt now).setUpdatedAt
    now).setFieldWithDefault 7
  match s1.Validate with
  | some e => (s1, some e, [])
  | none => (s1, insertErr, [.insert s1])

/-- Update for ModelTemplate, mirroring `Server.update`. -/
def ModelTemplate.update (s : ModelTemplate) (now : Time) (updates : BsonM)
    (updErr : Option GoError) :
    Option (ModelTemplate × BsonM × Option GoError × List (StoreOp ModelTemplate)) :=
  let s1 := s.setUpdatedAt now
  let updates1 := match bsonGet updates "$set" with
    | some _ => updates
    | none => bsonSet updates "$set" (.doc [])
  match bsonGet updates1 "$set" with
  | some (.doc m) =>
    let updates2 := bsonSet updates1 "$set" (.doc (bsonSet m "updated_at" (.time now)))
    some (match s1.Validate with
      | some e => (s1, updates2, some e, [])
      | none => (s1, updates2, updErr, [.updateById s1.ID updates2]))
  | some _ => none
  | none => none

/-- The cache key built in `CacheGetModelTemplate`. -/
def modelTemplateCacheKey (key value : String) : String :=
  ModelTemplateClientName ++ ":" ++ ModelTemplateDBName ++ ":" ++ ModelTemplateColName ++
    ":" ++ key ++ ":" ++ value

/-- The tail of `CacheGetModelTemplate` after the negative-cache check. -/
def cacheGetModelTemplateTail (env : CacheEnv ModelTemplate) (key value : String)
    (negCache : Bool) : CacheGetRes ModelTemplate :=
  let cacheKey := modelTemplateCacheKey key value
  match env.redisGet cacheKey with
  | .error e => ⟨none, some e, [cacheKey], [], []⟩
  | .ok r =>
    if r ≠ "" then
      let p := env.unmarshal r
      ⟨some p.1, p.2, [cacheKey], [], []⟩
    else
      let q := env.findOne key value
      let tasks :=
        if q.2 = some GoError.notFound ∧ negCache = true then
          [CacheTask.fillNegCache cacheKey]
        else if q.2 ≠ none then
          [CacheTask.fillCache cacheKey q.1]
        else []
      ⟨some q.1, q.2, [cacheKey], [(key, value)], tasks⟩

/-- CacheGetModelTemplate: cache-aside lookup for ModelTemplate, with
optional negative caching, mirroring `CacheGetServer`. -/
def CacheGetModelTemplate (env : CacheEnv ModelTemplate) (key value : String)
    (negCache : Bool) : CacheGetRes ModelTemplate :=
  let cacheKey := modelTemplateCacheKey key value
  if negCache then
    match env.redisGet ("neg:" ++ cacheKey) with
    | .error e => ⟨none, some e, ["neg:" ++ cacheKey], [], []⟩
    | .ok r =>
      if r ≠ "" then ⟨none, some GoError.notFound, ["neg:" ++ cacheKey], [], []⟩
      else
        let rest := cacheGetModelTemplateTail env key value true
        { rest with reads := ("neg:" ++ cacheKey) :: rest.reads }
  else cacheGetModelTemplateTail env key value false

/-- The background positive-cache fill for ModelTemplate. -/
def fillCacheModelTemplate (marshal : ModelTemplate → String × Option GoError)
    (key : String) (value : ModelTemplate) : RedisSet :=
  ⟨key, (marshal value).1, CacheTTL⟩

/-- The background negative-cache fill for ModelTemplate. -/
def fillNegCacheModelTemplate (key : String) : RedisSet :=
  ⟨"neg:" ++ key, "neg", NegCacheTTL⟩

/-- The `updated_at`-style entry stored under the `$set` sub-document of an
update map: `none` when `$set` is absent or not a sub-document. -/
def setEntry (u : BsonM) (k : String) : Option BsonValue :=
  match bsonGet u "$set" with
  | some (.doc m) => bsonGet m k
  | _ => none

/-- The zero value `new(Server)`. -/
def zeroServer : Server := ⟨"", "", 0, 0⟩

/-- The zero value `new(ServerMember)`. -/
def zeroServerMember : ServerMember := .mk "" "" "" "" 0 0 "" [] none []

/-- The zero value `new(ModelTemplate)`. -/
def zeroModelTemplate : ModelTemplate := .mk "" 0 0 0 none [] none []

/-- Concrete environment: empty cache, store lookup succeeds. -/
def okStoreEnvS : CacheEnv Server :=
  ⟨fun _ => .ok "", fun _ _ => (zeroServer, none), fun _ => (zeroServer, none)⟩

/-- Concrete environment: empty cache, store lookup succeeds. -/
def okStoreEnvM : CacheEnv ServerMember :=
  ⟨fun _ => .ok "", fun _ _ => (zeroServerMember, none), fun _ => (zeroServerMember, none)⟩

/-- Concrete environment: empty cache, store lookup succeeds. -/
def okStoreEnvT : CacheEnv ModelTemplate :=
  ⟨fun _ => .ok "", fun _ _ => (zeroModelTemplate, none), fun _ => (zeroModelTemplate, none)⟩

/-- Concrete environment: every cache read fails. -/
def cacheDownEnvS : CacheEnv Server :=
  ⟨fun _ => .error (.cache "down"), fun _ _ => (zeroServer, none), fun _ => (zeroServer, none)⟩

/-- Concrete environment: every cache read fails. -/
def cacheDownEnvM : CacheEnv ServerMember :=
  ⟨fun _ => .error (.cache "down"), fun _ _ => (zeroServerMember, none),
    fun _ => (zeroServerMember, none)⟩

/-- Concrete environment: every cache read fails. -/
def cacheDownEnvT : CacheEnv ModelTemplate :=
  ⟨fun _ => .error (.cache "down"), fun _ _ => (zeroModelTemplate, none),
    fun _ => (zeroModelTemplate, none)⟩

/-- Concrete environment: the negative-cache key for `("k","v")` misses,
every other cache read fails. -/
def posDownEnvS : CacheEnv Server :=
  ⟨fun key => if key = "neg:" ++ serverCacheKey "k" "v" then .ok "" else .error (.cache "down"),
    fun _ _ => (zeroServer, none), fun _ => (zeroServer, none)⟩

/-- Concrete environment: the negative-cache key for `("k","v")` misses,
every other cache read fails. -/
def posDownEnvM : CacheEnv ServerMember :=
  ⟨fun key => if key = "neg:" ++ serverMemberCacheKey "k" "v" then .ok ""
      else .error (.cache "down"),
    fun _ _ => (zeroServerMember, none), fun _ => (zeroServerMember, none)⟩

/-- Concrete environment: the negative-cache key for `("k","v")` misses,
every other cache read fails. -/
def posDownEnvT : CacheEnv ModelTemplate :=
  ⟨fun key => if key = "neg:" ++ modelTemplateCacheKey "k" "v" then .ok ""
      else .error (.cache "down"),
    fun _ _ => (zeroModelTemplate, none), fun _ => (zeroModelTemplate, none)⟩

/-- Concrete environment: every cache read returns the sentinel `"neg"`. -/
def negHitEnvS : CacheEnv Server :=
  ⟨fun _ => .ok "neg", fun _ _ => (zeroServer, none), fun _ => (zeroServer, none)⟩

/-- Concrete environment: every cache read returns the sentinel `"neg"`. -/
def negHitEnvM : CacheEnv ServerMember :=
  ⟨fun _ => .ok "neg", fun _ _ => (zeroServerMember, none), fun _ => (zeroServerMember, none)⟩

/-- Concrete environment: every cache read returns the sentinel `"neg"`. -/
def negHitEnvT : CacheEnv ModelTemplate :=
  ⟨fun _ => .ok "neg", fun _ _ => (zeroModelTemplate, none), fun _ => (zeroModelTemplate, none)⟩

/-- Concrete environment: empty cache, store lookup reports `ErrNotFound`. -/
def notFoundEnvS : CacheEnv Server :=
  ⟨fun _ => .ok "", fun _ _ => (zeroServer, some .notFound), fun _ => (zeroServer, none)⟩

/-- Concrete environment: empty cache, store lookup reports `ErrNotFound`. -/
def notFoundEnvM : CacheEnv ServerMember :=
  ⟨fun _ => .ok "", fun _ _ => (zeroServerMember, some .notFound),
    fun _ => (zeroServerMember, none)⟩

/-- Concrete environment: empty cache, store lookup reports `ErrNotFound`. -/
def notFoundEnvT : CacheEnv ModelTemplate :=
  ⟨fun _ => .ok "", fun _ _ => (zeroModelTemplate, some .notFound),
    fun _ => (zeroModelTemplate, none)⟩

/-- The result of updating `zeroServer` with an empty patch at time 1:
validation fails (zero ID, DiscordID and CreatedAt) and no store op runs. -/
def zeroServerUpdateRes : Server × BsonM × Option GoError × List (StoreOp Server) :=
  (⟨"", "", 0, 1⟩, [("$set", BsonValue.doc [("updated_at", BsonValue.time 1)])],
    some (GoError.validation ["ID", "DiscordID", "CreatedAt"]), [])

/-- The result of updating `zeroServerMember` with an empty patch at time 1:
validation fails and no store op runs. -/
def zeroMemberUpdateRes : ServerMember × BsonM × Option GoError × List (StoreOp ServerMember) :=
  (.mk "" "" "" "" 0 1 "" [] none [],
    [("$set", BsonValue.doc [("updated_at", BsonValue.time 1)])],
    some (GoError.validation
      ["ID", "DiscordUserID", "DiscordServerID", "DiscordMemberID", "CreatedAt"]), [])

/-- The result of updating `zeroModelTemplate` with an empty patch at time 1:
validation fails and no store op runs. -/
def zeroTemplateUpdateRes : ModelTemplate × BsonM × Option GoError × List (StoreOp ModelTemplate) :=
  (.mk "" 0 1 0 none [] none [],
    [("$set", BsonValue.doc [("updated_at", BsonValue.time 1)])],
    some (GoError.validation ["ID", "CreatedAt", "FieldWithDefault"]), [])

/-- The result of a successful update of the valid Server `⟨"i","d",1,1⟩`
at time 2 with patch `{"$set": {"code": "A2"}}`: UpdatedAt set in memory,
`updated_at` merged into the `$set` map, and one UpdateByID issued. -/
def serverUpdateOkRes : Server × BsonM × Option GoError × List (StoreOp Server) :=
  (⟨"i", "d", 1, 2⟩,
    [("$set", BsonValue.doc [("code", BsonValue.str "A2"), ("updated_at", BsonValue.time 2)])],
    none,
    [StoreOp.updateById "i"
      [("$set", BsonValue.doc [("code", BsonValue.str "A2"), ("updated_at", BsonValue.time 2)])]])

/-- The in-memory Server after the assignments at the head of `Create`. -/
def serverCreated (s : Server) (ts machine pid counter : Nat) (now : Time) : Server :=
  { s with ID := newObjectId ts machine pid counter, CreatedAt := now, UpdatedAt := now }

/-- The in-memory ServerMember after the assignments at the head of `Create`. -/
def serverMemberCreated (sm : ServerMember) (ts machine pid counter : Nat)
    (now : Time) : ServerMember :=
  ((sm.setID (newObjectId ts machine pid counter)).setCreatedAt now).setUpdatedAt now

/-- The in-memory ModelTemplate after the assignments at the head of `Create`
(including the `FieldWithDefault = 7` default). -/
def modelTemplateCreated (mt : ModelTemplate) (ts machine pid counter : Nat)
    (now : Time) : ModelTemplate :=
  (((mt.setID (newObjectId ts machine pid counter)).setCreatedAt now).setUpdatedAt
    now).setFieldWithDefault 7

/-- The in-memory Server after the `UpdatedAt` assignment at the head of `Update`. -/
def serverTouched (s : Server) (now : Time) : Server :=
  { s with UpdatedAt := now }

/-- The patch after `Update` merged `updated_at` into an existing `$set`
sub-document `m0` of `u`. -/
def mergedPatch (u m0 : BsonM) (now : Time) : BsonM :=
  bsonSet u "$set" (.doc (bsonSet m0 "updated_at" (.time now)))

/-- The patch after `Update` created an absent `$set` sub-document in `u` and
merged `updated_at` into it. -/
def mergedPatchAbsent (u : BsonM) (now : Time) : BsonM :=
  bsonSet (bsonSet u "$set" (.doc [])) "$set" (.doc [("updated_at", .time now)])

lemma newObjectId_ne_empty (ts machine pid counter : Nat) :
    newObjectId ts machine pid counter ≠ "" := by
  intro h
  have h2 := congrArg String.data h
  simp [newObjectId] at h2

lemma bsonGet_bsonSet_self (m : BsonM) (k : String) (v : BsonValue) :
    bsonGet (bsonSet m k v) k = some v := by
  induction m with
  | nil => simp [bsonGet, bsonSet]
  | cons p rest ih =>
    obtain ⟨a, b⟩ := p
    by_cases h : a = k
    · simp [bsonGet, bsonSet, h]
    · simp [bsonGet, bsonSet, h, ih]

lemma bsonGet_bsonSet_ne (m : BsonM) (k k' : String) (v : BsonValue) (h : k' ≠ k) :
    bsonGet (bsonSet m k v) k' = bsonGet m k' := by
  induction m with
  | nil => simp [bsonGet, bsonSet, Ne.symm h]
  | cons p rest ih =>
    obtain ⟨a, b⟩ := p
    by_cases ha : a = k
    · simp [bsonGet, bsonSet, ha, Ne.symm h]
    · simp [bsonGet, bsonSet, ha, ih]

lemma serverCreate_eq (s : Server) (ts machine pid counter : Nat) (now : Time)
    (ie : Option GoError) :
    Server.create s ts machine pid counter now ie =
      (serverCreated s ts machine pid counter now,
       (match (serverCreated s ts machine pid counter now).Validate with
        | some e => some e
        | none => ie),
       (match (serverCreated s ts machine pid counter now).Validate with
        | some _ => []
        | none => [.insert (serverCreated s ts machine pid counter now)])) := by
  unfold Server.create serverCreated
  dsimp only
  cases Server.Validate { s with ID := newObjectId ts machine pid counter, CreatedAt := now, UpdatedAt := now } <;> simp

lemma serverMemberCreate_eq (sm : ServerMember) (ts machine pid counter : Nat) (now : Time)
    (ie : Option GoError) :
    ServerMember.create sm ts machine pid counter now ie =
      (serverMemberCreated sm ts machine pid counter now,
       (match (serverMemberCreated sm ts machine pid counter now).Validate with
        | some e => some e
        | none => ie),
       (match (serverMemberCreated sm ts machine pid counter now).Validate with
        | some _ => []
        | none => [.insert (serverMemberCreated sm ts machine pid counter now)])) := by
  unfold ServerMember.create serverMemberCreated
  dsimp only
  cases ServerMember.Validate (((sm.setID (newObjectId ts machine pid counter)).setCreatedAt now).setUpdatedAt now) <;> simp

lemma modelTemplateCreate_eq (mt : ModelTemplate) (ts machine pid counter : Nat) (now : Time)
    (ie : Option GoError) :
    ModelTemplate.create mt ts machine pid counter now ie =
      (modelTemplateCreated mt ts machine pid counter now,
       (match (modelTemplateCreated mt ts machine pid counter now).Validate with
        | some e => some e
        | none => ie),
       (match (modelTemplateCreated mt ts machine pid counter now).Validate with
        | some _ => []
        | none => [.insert (modelTemplateCreated mt ts machine pid counter now)])) := by
  unfold ModelTemplate.create modelTemplateCreated
  dsimp only
  cases ModelTemplate.Validate ((((mt.setID (newObjectId ts machine pid counter)).setCreatedAt now).setUpdatedAt now).setFieldWithDefault 7) <;> simp

lemma serverUpdate_set_doc (s : Server) (now : Time) (u : BsonM) (ue : Option GoError)
    (m0 : BsonM) (h : bsonGet u "$set" = some (BsonValue.doc m0)) :
    Server.update s now u ue =
      some (serverTouched s now,
        mergedPatch u m0 now,
        (match (serverTouched s now).Validate with
         | some e => some e
         | none => ue),
        (match (serverTouched s now).Validate with
         | some _ => []
         | none => [.updateById (serverTouched s now).ID (mergedPatch u m0 now)])) := by
  unfold Server.update serverTouched mergedPatch
  simp only [h]
  cases Server.Validate { s with UpdatedAt := now } <;> simp

lemma serverUpdate_set_absent (s : Server) (now : Time) (u : BsonM) (ue : Option GoError)
    (h : bsonGet u "$set" = none) :
    Server.update s now u ue =
      some (serverTouched s now,
        mergedPatchAbsent u now,
        (match (serverTouched s now).Validate with
         | some e => some e
         | none => ue),
        (match (serverTouched s now).Validate with
         | some _ => []
         | none => [.updateById (serverTouched s now).ID (mergedPatchAbsent u now)])) := by
  unfold Server.update serverTouched mergedPatchAbsent
  simp only [h, bsonGet_bsonSet_self, bsonSet]
  cases Server.Validate { s with UpdatedAt := now } <;> simp

lemma serverUpdate_set_not_doc (s : Server) (now : Time) (u : BsonM) (ue : Option GoError)
    (v : BsonValue) (h : bsonGet u "$set" = some v) (hd : v.isDoc = false) :
    Server.update s now u ue = none := by
  unfold Server.update
  cases v <;> simp [BsonValue.isDoc, h] at hd ⊢

lemma serverMemberUpdate_set_doc (sm : ServerMember) (now : Time) (u : BsonM)
    (ue : Option GoError) (m0 : BsonM) (h : bsonGet u "$set" = some (BsonValue.doc m0)) :
    ServerMember.update sm now u ue =
      some (sm.setUpdatedAt now,
        mergedPatch u m0 now,
        (match (sm.setUpdatedAt now).Validate with
         | some e => some e
         | none => ue),
        (match (sm.setUpdatedAt now).Validate with
         | some _ => []
         | none => [.updateById (sm.setUpdatedAt now).ID (mergedPatch u m0 now)])) := by
  unfold ServerMember.update mergedPatch
  simp only [h]
  cases ServerMember.Validate (sm.setUpdatedAt now) <;> simp

lemma serverMemberUpdate_set_absent (sm : ServerMember) (now : Time) (u : BsonM)
    (ue : Option GoError) (h : bsonGet u "$set" = none) :
    ServerMember.update sm now u ue =
      some (sm.setUpdatedAt now,
        mergedPatchAbsent u now,
        (match (sm.setUpdatedAt now).Validate with
         | some e => some e
         | none => ue),
        (match (sm.setUpdatedAt now).Validate with
         | some _ => []
         | none => [.updateById (sm.setUpdatedAt now).ID (mergedPatchAbsent u now)])) := by
  unfold ServerMember.update mergedPatchAbsent
  simp only [h, bsonGet_bsonSet_self, bsonSet]
  cases ServerMember.Validate (sm.setUpdatedAt now) <;> simp

lemma serverMemberUpdate_set_not_doc (sm : ServerMember) (now : Time) (u : BsonM)
    (ue : Option GoError) (v : BsonValue) (h : bsonGet u "$set" = some v)
    (hd : v.isDoc = false) :
    ServerMember.update sm now u ue = none := by
  unfold ServerMember.update
  cases v <;> simp [BsonValue.isDoc, h] at hd ⊢

lemma modelTemplateUpdate_set_doc (mt : ModelTemplate) (now : Time) (u : BsonM)
    (ue : Option GoError) (m0 : BsonM) (h : bsonGet u "$set" = some (BsonValue.doc m0)) :
    ModelTemplate.update mt now u ue =
      some (mt.setUpdatedAt now,
        mergedPatch u m0 now,
        (match (mt.setUpdatedAt now).Validate with
         | some e => some e
         | none => ue),
        (match (mt.setUpdatedAt now).Validate with
         | some _ => []
         | none => [.updateById (mt.setUpdatedAt now).ID (mergedPatch u m0 now)])) := by
  unfold ModelTemplate.update mergedPatch
  simp only [h]
  cases ModelTemplate.Validate (mt.setUpdatedAt now) <;> simp

lemma modelTemplateUpdate_set_absent (mt : ModelTemplate) (now : Time) (u : BsonM)
    (ue : Option GoError) (h : bsonGet u "$set" = none) :
    ModelTemplate.update mt now u ue =
      some (mt.setUpdatedAt now,
        mergedPatchAbsent u now,
        (match (mt.setUpdatedAt now).Validate with
         | some e => some e
         | none => ue),
        (match (mt.setUpdatedAt now).Validate with
         | some _ => []
         | none => [.updateById (mt.setUpdatedAt now).ID (mergedPatchAbsent u now)])) := by
  unfold ModelTemplate.update mergedPatchAbsent
  simp only [h, bsonGet_bsonSet_self, bsonSet]
  cases ModelTemplate.Validate (mt.setUpdatedAt now) <;> simp

lemma modelTemplateUpdate_set_not_doc (mt : ModelTemplate) (now : Time) (u : BsonM)
    (ue : Option GoError) (v : BsonValue) (h : bsonGet u "$set" = some v)
    (hd : v.isDoc = false) :
    ModelTemplate.update mt now u ue = none := by
  unfold ModelTemplate.update
  cases v <;> simp [BsonValue.isDoc, h] at hd ⊢

/-- C5: For every entity whose Validate call fails, Create and Update return
that ValidationError and perform no store operation at all (no Insert and no
UpdateByID is issued), so the store's state is unchanged by a
failed-validation call. Stated for Server, ServerMember and ModelTemplate. -/
theorem failed_validation_returns_error_without_store_op
    (s : Server) (sm : ServerMember) (mt : ModelTemplate)
    (ts machine pid counter : Nat) (nowc nowu : Time)
    (ie1 ie2 ie3 ue1 ue2 ue3 : Option GoError) (u1 u2 u3 : BsonM) :
    (∀ e, (serverCreated s ts machine pid counter nowc).Validate = some e →
      (s.create ts machine pid counter nowc ie1).2.1 = some e ∧
      (s.create ts machine pid counter nowc ie1).2.2 = []) ∧
    (∀ e, (serverMemberCreated sm ts machine pid counter nowc).Validate = some e →
      (sm.create ts machine pid counter nowc ie2).2.1 = some e ∧
      (sm.create ts machine pid counter nowc ie2).2.2 = []) ∧
    (∀ e, (modelTemplateCreated mt ts machine pid counter nowc).Validate = some e →
      (mt.create ts machine pid counter nowc ie3).2.1 = some e ∧
      (mt.create ts machine pid counter nowc ie3).2.2 = []) ∧
    (∀ t e, Server.update s nowu u1 ue1 = some t → t.1.Validate = some e →
      t.2.2.1 = some e ∧ t.2.2.2 = []) ∧
    (∀ t e, ServerMember.update sm nowu u2 ue2 = some t → t.1.Validate = some e →
      t.2.2.1 = some e ∧ t.2.2.2 = []) ∧
    (∀ t e, ModelTemplate.update mt nowu u3 ue3 = some t → t.1.Validate = some e →
      t.2.2.1 = some e ∧ t.2.2.2 = []) := by
  refine ⟨?_, ?_, ?_, ?_, ?_, ?_⟩
  · intro e he
    rw [serverCreate_eq]
    simp [he]
  · intro e he
    rw [serverMemberCreate_eq]
    simp [he]
  · intro e he
    rw [modelTemplateCreate_eq]
    simp [he]
  · intro t e ht hv
    rcases hu : bsonGet u1 "$set" with _ | v
    · rw [serverUpdate_set_absent s nowu u1 ue1 hu] at ht
      obtain rfl := Option.some.inj ht
      simp only at hv
      simp [hv]
    · cases v with
      | doc m0 =>
        rw [serverUpdate_set_doc s nowu u1 ue1 m0 hu] at ht
        obtain rfl := Option.some.inj ht
        simp only at hv
        simp [hv]
      | str a => rw [serverUpdate_set_not_doc s nowu u1 ue1 _ hu rfl] at ht; simp at ht
      | int a => rw [serverUpdate_set_not_doc s nowu u1 ue1 _ hu rfl] at ht; simp at ht
      | time a => rw [serverUpdate_set_not_doc s nowu u1 ue1 _ hu rfl] at ht; simp at ht
      | boolean a => rw [serverUpdate_set_not_doc s nowu u1 ue1 _ hu rfl] at ht; simp at ht
  · intro t e ht hv
    rcases hu : bsonGet u2 "$set" with _ | v
    · rw [serverMemberUpdate_set_absent sm nowu u2 ue2 hu] at ht
      obtain rfl := Option.some.inj ht
      simp only at hv
      simp [hv]
    · cases v with
      | doc m0 =>
        rw [serverMemberUpdate_set_doc sm nowu u2 ue2 m0 hu] at ht
        obtain rfl := Option.some.inj ht
        simp only at hv
        simp [hv]
      | str a => rw [serverMemberUpdate_set_not_doc sm nowu u2 ue2 _ hu rfl] at ht; simp at ht
      | int a => rw [serverMemberUpdate_set_not_doc sm nowu u2 ue2 _ hu rfl] at ht; simp at ht
      | time a => rw [serverMemberUpdate_set_not_doc sm nowu u2 ue2 _ hu rfl] at ht; simp at ht
      | boolean a =>
        rw [serverMemberUpdate_set_not_doc sm nowu u2 ue2 _ hu rfl] at ht; simp at ht
  · intro t e ht hv
    rcases hu : bsonGet u3 "$set" with _ | v
    · rw [modelTemplateUpdate_set_absent mt nowu u3 ue3 hu] at ht
      obtain rfl := Option.some.inj ht
      simp only at hv
      simp [hv]
    · cases v with
      | doc m0 =>
        rw [modelTemplateUpdate_set_doc mt nowu u3 ue3 m0 hu] at ht
        obtain rfl := Option.some.inj ht
        simp only at hv
        simp [hv]
      | str a => rw [modelTemplateUpdate_set_not_doc mt nowu u3 ue3 _ hu rfl] at ht; simp at ht
      | int a => rw [modelTemplateUpdate_set_not_doc mt nowu u3 ue3 _ hu rfl] at ht; simp at ht
      | time a => rw [modelTemplateUpdate_set_not_doc mt nowu u3 ue3 _ hu rfl] at ht; simp at ht
      | boolean a =>
        rw [modelTemplateUpdate_set_not_doc mt nowu u3 ue3 _ hu rfl] at ht; simp at ht

/-- Witness for C5 at concrete failing inputs: the zero-valued entities fail
validation, the returned error is that validation error, and the issued
store-operation list is empty, for Create (at time 0) and Update (at time
1, empty patch) of all three types. -/
theorem failed_validation_returns_error_without_store_op_witness :
    ((Server.create zeroServer 0 0 0 0 0 none).2.1 =
      some (GoError.validation ["DiscordID", "CreatedAt", "UpdatedAt"]) ∧
     (Server.create zeroServer 0 0 0 0 0 none).2.2 = []) ∧
    ((ServerMember.create zeroServerMember 0 0 0 0 0 none).2.2 = []) ∧
    ((ModelTemplate.create zeroModelTemplate 0 0 0 0 0 none).2.2 = []) ∧
    (Server.update zeroServer 1 [] none = some zeroServerUpdateRes ∧
     zeroServerUpdateRes.2.2.1 =
      some (GoError.validation ["ID", "DiscordID", "CreatedAt"]) ∧
     zeroServerUpdateRes.2.2.2 = []) ∧
    (ServerMember.update zeroServerMember 1 [] none = some zeroMemberUpdateRes ∧
     zeroMemberUpdateRes.2.2.2 = []) ∧
    (ModelTemplate.update zeroModelTemplate 1 [] none = some zeroTemplateUpdateRes ∧
     zeroTemplateUpdateRes.2.2.2 = []) := by
  have h := failed_validation_returns_error_without_store_op zeroServer zeroServerMember
    zeroModelTemplate 0 0 0 0 0 1 none none none none none none [] [] []
  have hs := h.1 (GoError.validation ["DiscordID", "CreatedAt", "UpdatedAt"]) (by decide)
  have hm := h.2.1 (GoError.validation
    ["DiscordUserID", "DiscordServerID", "DiscordMemberID", "CreatedAt", "UpdatedAt"]) (by decide)
  have hmt := h.2.2.1 (GoError.validation ["CreatedAt", "UpdatedAt"]) (by decide)
  have hus := h.2.2.2.1 zeroServerUpdateRes
    (GoError.validation ["ID", "DiscordID", "CreatedAt"]) rfl (by decide)
  have hum := h.2.2.2.2.1 zeroMemberUpdateRes
    (GoError.validation
      ["ID", "DiscordUserID", "DiscordServerID", "DiscordMemberID", "CreatedAt"]) rfl (by decide)
  have hut := h.2.2.2.2.2 zeroTemplateUpdateRes
    (GoError.validation ["ID", "CreatedAt", "FieldWithDefault"]) rfl (by decide)
  exact ⟨⟨hs.1, hs.2⟩, hm.2, hmt.2, ⟨rfl, hus.1, hus.2⟩, ⟨rfl, hum.2⟩, ⟨rfl, hut.2⟩⟩

/-- C6: For every entity on which Create is called, after Create returns
successfully the entity's Identifier is the freshly generated (non-empty)
object id and its CreatedAt timestamp equals its UpdatedAt timestamp, both
set to the call's now. Stated for Server, ServerMember and ModelTemplate. -/
theorem create_assigns_fresh_id_and_equal_timestamps
    (s : Server) (sm : ServerMember) (mt : ModelTemplate)
    (ts machine pid counter : Nat) (now : Time) (ie1 ie2 ie3 : Option GoError)
    (_h1 : (s.create ts machine pid counter now ie1).2.1 = none)
    (_h2 : (sm.create ts machine pid counter now ie2).2.1 = none)
    (_h3 : (mt.create ts machine pid counter now ie3).2.1 = none) :
    ((s.create ts machine pid counter now ie1).1.ID = newObjectId ts machine pid counter ∧
     (s.create ts machine pid counter now ie1).1.ID ≠ "" ∧
     (s.create ts machine pid counter now ie1).1.CreatedAt = now ∧
     (s.create ts machine pid counter now ie1).1.UpdatedAt = now) ∧
    ((sm.create ts machine pid counter now ie2).1.ID = newObjectId ts machine pid counter ∧
     (sm.create ts machine pid counter now ie2).1.ID ≠ "" ∧
     (sm.create ts machine pid counter now ie2).1.CreatedAt = now ∧
     (sm.create ts machine pid counter now ie2).1.UpdatedAt = now) ∧
    ((mt.create ts machine pid counter now ie3).1.ID = newObjectId ts machine pid counter ∧
     (mt.create ts machine pid counter now ie3).1.ID ≠ "" ∧
     (mt.create ts machine pid counter now ie3).1.CreatedAt = now ∧
     (mt.create ts machine pid counter now ie3).1.UpdatedAt = now) := by
  refine ⟨?_, ?_, ?_⟩
  · rw [serverCreate_eq]
    simp [serverCreated, newObjectId_ne_empty]
  · rw [serverMemberCreate_eq]
    rcases sm with ⟨a, b, c, d, e, f, g, hh, i, j⟩
    simp [serverMemberCreated, ServerMember.setID, ServerMember.setCreatedAt,
      ServerMember.setUpdatedAt, ServerMember.ID, ServerMember.CreatedAt,
      ServerMember.UpdatedAt, newObjectId_ne_empty]
  · rw [modelTemplateCreate_eq]
    rcases mt with ⟨a, b, c, d, e, f, g, hh⟩
    simp [modelTemplateCreated, ModelTemplate.setID, ModelTemplate.setCreatedAt,
      ModelTemplate.setUpdatedAt, ModelTemplate.setFieldWithDefault, ModelTemplate.ID,
      ModelTemplate.CreatedAt, ModelTemplate.UpdatedAt, newObjectId_ne_empty]

/-- Witness for C6 at concrete valid inputs: creating entities at time 1
succeeds, the assigned id is non-empty and CreatedAt equals UpdatedAt. -/
theorem create_assigns_fresh_id_and_equal_timestamps_witness :
    (Server.create ⟨"", "d", 0, 0⟩ 0 0 0 0 1 none).2.1 = none ∧
    (Server.create ⟨"", "d", 0, 0⟩ 0 0 0 0 1 none).1.ID ≠ "" ∧
    (Server.create ⟨"", "d", 0, 0⟩ 0 0 0 0 1 none).1.CreatedAt = 1 ∧
    (Server.create ⟨"", "d", 0, 0⟩ 0 0 0 0 1 none).1.UpdatedAt = 1 ∧
    (ServerMember.create (.mk "" "u" "s" "m" 0 0 "" [] none []) 0 0 0 0 1 none).1.UpdatedAt = 1 ∧
    (ModelTemplate.create zeroModelTemplate 0 0 0 0 1 none).1.ID ≠ "" := by
  have h := create_assigns_fresh_id_and_equal_timestamps ⟨"", "d", 0, 0⟩
    (.mk "" "u" "s" "m" 0 0 "" [] none []) zeroModelTemplate
    0 0 0 0 1 none none none (by decide) (by decide) (by decide)
  exact ⟨by decide, h.1.2.1, h.1.2.2.1, h.1.2.2.2, h.2.1.2.2.2, h.2.2.2.1⟩

/-- C9: Update is total only under the precondition that a `$set` entry of
the patch map, when present, holds a `bson.M` sub-document: if the patch's
`$set` entry holds a value of any other type, Update panics at the unchecked
type assertion (modelled as returning `none`); and whenever every `$set`
entry is a sub-document, Update does not panic. Stated for all three types. -/
theorem update_panics_iff_set_value_not_doc
    (now : Time) (u : BsonM) (ue : Option GoError) (v : BsonValue)
    (hv : bsonGet u "$set" = some v) (hd : v.isDoc = false) :
    (∀ s : Server, Server.update s now u ue = none) ∧
    (∀ sm : ServerMember, ServerMember.update sm now u ue = none) ∧
    (∀ mt : ModelTemplate, ModelTemplate.update mt now u ue = none) ∧
    (∀ u' : BsonM, (∀ w, bsonGet u' "$set" = some w → w.isDoc = true) →
      (∀ s : Server, (Server.update s now u' ue).isSome = true) ∧
      (∀ sm : ServerMember, (ServerMember.update sm now u' ue).isSome = true) ∧
      (∀ mt : ModelTemplate, (ModelTemplate.update mt now u' ue).isSome = true)) := by
  refine ⟨fun s => serverUpdate_set_not_doc s now u ue v hv hd,
    fun sm => serverMemberUpdate_set_not_doc sm now u ue v hv hd,
    fun mt => modelTemplateUpdate_set_not_doc mt now u ue v hv hd, ?_⟩
  intro u' hw
  rcases hu : bsonGet u' "$set" with _ | w
  · refine ⟨fun s => ?_, fun sm => ?_, fun mt => ?_⟩
    · rw [serverUpdate_set_absent s now u' ue hu]; rfl
    · rw [serverMemberUpdate_set_absent sm now u' ue hu]; rfl
    · rw [modelTemplateUpdate_set_absent mt now u' ue hu]; rfl
  · have hwd := hw w hu
    cases w <;> simp [BsonValue.isDoc] at hwd
    rename_i m0
    refine ⟨fun s => ?_, fun sm => ?_, fun mt => ?_⟩
    · rw [serverUpdate_set_doc s now u' ue m0 hu]; rfl
    · rw [serverMemberUpdate_set_doc sm now u' ue m0 hu]; rfl
    · rw [modelTemplateUpdate_set_doc mt now u' ue m0 hu]; rfl

/-- Witness for C9 at a concrete patch whose `$set` entry is a string: all
three Updates panic (return `none`); with an empty patch they are total. -/
theorem update_panics_iff_set_value_not_doc_witness :
    Server.update zeroServer 1 [("$set", BsonValue.str "x")] none = none ∧
    ServerMember.update zeroServerMember 1 [("$set", BsonValue.str "x")] none = none ∧
    ModelTemplate.update zeroModelTemplate 1 [("$set", BsonValue.str "x")] none = none ∧
    (Server.update zeroServer 1 [] none).isSome = true := by
  have h := update_panics_iff_set_value_not_doc 1 [("$set", BsonValue.str "x")] none
    (BsonValue.str "x") (by simp [bsonGet]) rfl
  have h4 := (h.2.2.2 [] (by intro w hw; simp [bsonGet] at hw)).1 zeroServer
  exact ⟨h.1 zeroServer, h.2.1 zeroServerMember, h.2.2.1 zeroModelTemplate, h4⟩

/-- C10: Even when Validate fails and the call returns a ValidationError with
the store untouched, Create has already overwritten the in-memory entity's
ID, CreatedAt and UpdatedAt (and, for ModelTemplate, set FieldWithDefault to
7), and Update has already changed the in-memory entity's UpdatedAt and
inserted an `updated_at` assignment into the caller's patch map; none of
these in-memory mutations are rolled back on failure. -/
theorem failed_validation_frame_effects
    (s : Server) (mt : ModelTemplate) (ts machine pid counter : Nat)
    (now1 now2 now3 : Time) (ie1 ie3 ue1 : Option GoError) (u1 : BsonM) :
    (∀ fs, (s.create ts machine pid counter now1 ie1).2.1 = some (.validation fs) →
      (s.create ts machine pid counter now1 ie1).1.ID = newObjectId ts machine pid counter ∧
      (s.create ts machine pid counter now1 ie1).1.CreatedAt = now1 ∧
      (s.create ts machine pid counter now1 ie1).1.UpdatedAt = now1) ∧
    (∀ t fs, Server.update s now2 u1 ue1 = some t →
      t.2.2.1 = some (.validation fs) →
      t.1.UpdatedAt = now2 ∧ setEntry t.2.1 "updated_at" = some (.time now2)) ∧
    (∀ fs, (mt.create ts machine pid counter now3 ie3).2.1 = some (.validation fs) →
      (mt.create ts machine pid counter now3 ie3).1.ID = newObjectId ts machine pid counter ∧
      (mt.create ts machine pid counter now3 ie3).1.CreatedAt = now3 ∧
      (mt.create ts machine pid counter now3 ie3).1.UpdatedAt = now3 ∧
      (mt.create ts machine pid counter now3 ie3).1.FieldWithDefault = 7) := by
  refine ⟨?_, ?_, ?_⟩
  · intro fs hf
    rw [serverCreate_eq]
    simp [serverCreated]
  · intro t fs ht hf
    rcases hu : bsonGet u1 "$set" with _ | v
    · rw [serverUpdate_set_absent s now2 u1 ue1 hu] at ht
      obtain rfl := Option.some.inj ht
      constructor
      · simp [serverTouched]
      · simp [setEntry, mergedPatchAbsent, bsonGet_bsonSet_self, bsonGet]
    · cases v with
      | doc m0 =>
        rw [serverUpdate_set_doc s now2 u1 ue1 m0 hu] at ht
        obtain rfl := Option.some.inj ht
        constructor
        · simp [serverTouched]
        · simp [setEntry, mergedPatch, bsonGet_bsonSet_self]
      | str a => rw [serverUpdate_set_not_doc s now2 u1 ue1 _ hu rfl] at ht; simp at ht
      | int a => rw [serverUpdate_set_not_doc s now2 u1 ue1 _ hu rfl] at ht; simp at ht
      | time a => rw [serverUpdate_set_not_doc s now2 u1 ue1 _ hu rfl] at ht; simp at ht
      | boolean a => rw [serverUpdate_set_not_doc s now2 u1 ue1 _ hu rfl] at ht; simp at ht
  · intro fs hf
    rw [modelTemplateCreate_eq]
    rcases mt with ⟨a, b, c, d, e, f, g, hh⟩
    simp [modelTemplateCreated, ModelTemplate.setID, ModelTemplate.setCreatedAt,
      ModelTemplate.setUpdatedAt, ModelTemplate.setFieldWithDefault, ModelTemplate.ID,
      ModelTemplate.CreatedAt, ModelTemplate.UpdatedAt, ModelTemplate.FieldWithDefault]

/-- Witness for C10 at concrete failing inputs: a failed-validation Create of
`zeroServer` at time 1 has still assigned CreatedAt and UpdatedAt; a
failed-validation Update of `zeroServer` with an empty patch has still set
UpdatedAt to 1 and put `updated_at` into the patch's `$set` map; a
failed-validation Create of `zeroModelTemplate` at time 0 has still set
FieldWithDefault to 7. -/
theorem failed_validation_frame_effects_witness :
    (Server.create zeroServer 0 0 0 0 1 none).2.1 =
      some (GoError.validation ["DiscordID"]) ∧
    (Server.create zeroServer 0 0 0 0 1 none).1.CreatedAt = 1 ∧
    (Server.create zeroServer 0 0 0 0 1 none).1.UpdatedAt = 1 ∧
    Server.update zeroServer 1 [] none = some zeroServerUpdateRes ∧
    zeroServerUpdateRes.1.UpdatedAt = 1 ∧
    setEntry zeroServerUpdateRes.2.1 "updated_at" = some (BsonValue.time 1) ∧
    (ModelTemplate.create zeroModelTemplate 0 0 0 0 0 none).2.1 =
      some (GoError.validation ["CreatedAt", "UpdatedAt"]) ∧
    (ModelTemplate.create zeroModelTemplate 0 0 0 0 0 none).1.FieldWithDefault = 7 := by
  have h := failed_validation_frame_effects zeroServer zeroModelTemplate 0 0 0 0
    1 1 0 none none none []
  have hc := h.1 ["DiscordID"] (by decide)
  have hu := h.2.1 zeroServerUpdateRes ["ID", "DiscordID", "CreatedAt"] rfl (by decide)
  have hm := h.2.2 ["CreatedAt", "UpdatedAt"] (by decide)
  exact ⟨by decide, hc.2.1, hc.2.2, rfl, hu.1, hu.2, by decide, hm.2.2.2⟩

/-- C7: For every patch map passed to Update, Update sets the entity's
UpdatedAt to now and merges that timestamp into the patch's `$set`
field-assignment map (creating the `$set` map if absent and preserving any
field assignments the caller already placed under `$set`), runs Validate on
the in-memory entity, and on success issues UpdateByID with that patch; no
other key of the patch is touched (no implicit operator wrapping). Stated
for Server, ServerMember and ModelTemplate. -/
theorem update_merges_timestamp_into_set
    (s : Server) (sm : ServerMember) (mt : ModelTemplate) (now : Time)
    (u1 u2 u3 : BsonM) (ue1 ue2 ue3 : Option GoError) :
    (∀ t, Server.update s now u1 ue1 = some t →
      t.1.UpdatedAt = now ∧
      setEntry t.2.1 "updated_at" = some (.time now) ∧
      (∀ k, k ≠ "$set" → bsonGet t.2.1 k = bsonGet u1 k) ∧
      (∀ k, k ≠ "updated_at" → setEntry t.2.1 k = setEntry u1 k) ∧
      (t.1.Validate = none → t.2.2.1 = ue1 ∧ t.2.2.2 = [.updateById t.1.ID t.2.1]) ∧
      (∀ e, t.1.Validate = some e → t.2.2.1 = some e ∧ t.2.2.2 = [])) ∧
    (∀ t, ServerMember.update sm now u2 ue2 = some t →
      t.1.UpdatedAt = now ∧
      setEntry t.2.1 "updated_at" = some (.time now) ∧
      (∀ k, k ≠ "$set" → bsonGet t.2.1 k = bsonGet u2 k) ∧
      (∀ k, k ≠ "updated_at" → setEntry t.2.1 k = setEntry u2 k) ∧
      (t.1.Validate = none → t.2.2.1 = ue2 ∧ t.2.2.2 = [.updateById t.1.ID t.2.1]) ∧
      (∀ e, t.1.Validate = some e → t.2.2.1 = some e ∧ t.2.2.2 = [])) ∧
    (∀ t, ModelTemplate.update mt now u3 ue3 = some t →
      t.1.UpdatedAt = now ∧
      setEntry t.2.1 "updated_at" = some (.time now) ∧
      (∀ k, k ≠ "$set" → bsonGet t.2.1 k = bsonGet u3 k) ∧
      (∀ k, k ≠ "updated_at" → setEntry t.2.1 k = setEntry u3 k) ∧
      (t.1.Validate = none → t.2.2.1 = ue3 ∧ t.2.2.2 = [.updateById t.1.ID t.2.1]) ∧
      (∀ e, t.1.Validate = some e → t.2.2.1 = some e ∧ t.2.2.2 = [])) := by
  refine ⟨?_, ?_, ?_⟩
  · intro t ht
    rcases hu : bsonGet u1 "$set" with _ | v
    · rw [serverUpdate_set_absent s now u1 ue1 hu] at ht
      obtain rfl := Option.some.inj ht
      refine ⟨by simp [serverTouched], ?_, ?_, ?_, ?_, ?_⟩
      · simp [setEntry, mergedPatchAbsent, bsonGet_bsonSet_self, bsonGet]
      · intro k hk
        simp [mergedPatchAbsent, bsonGet_bsonSet_ne _ _ _ _ hk, hu]
      · intro k hk
        simp [setEntry, mergedPatchAbsent, bsonGet_bsonSet_self, bsonGet, hu, Ne.symm hk]
      · intro hv
        simp only at hv
        simp [hv]
      · intro e hv
        simp only at hv
        simp [hv]
    · cases v with
      | doc m0 =>
        rw [serverUpdate_set_doc s now u1 ue1 m0 hu] at ht
        obtain rfl := Option.some.inj ht
        refine ⟨by simp [serverTouched], ?_, ?_, ?_, ?_, ?_⟩
        · simp [setEntry, mergedPatch, bsonGet_bsonSet_self]
        · intro k hk
          simp [mergedPatch, bsonGet_bsonSet_ne _ _ _ _ hk]
        · intro k hk
          simp [setEntry, mergedPatch, bsonGet_bsonSet_self, hu,
            bsonGet_bsonSet_ne _ _ _ _ hk]
        · intro hv
          simp only at hv
          simp [hv]
        · intro e hv
          simp only at hv
          simp [hv]
      | str a => rw [serverUpdate_set_not_doc s now u1 ue1 _ hu rfl] at ht; simp at ht
      | int a => rw [serverUpdate_set_not_doc s now u1 ue1 _ hu rfl] at ht; simp at ht
      | time a => rw [serverUpdate_set_not_doc s now u1 ue1 _ hu rfl] at ht; simp at ht
      | boolean a => rw [serverUpdate_set_not_doc s now u1 ue1 _ hu rfl] at ht; simp at ht
  · intro t ht
    rcases hu : bsonGet u2 "$set" with _ | v
    · rw [serverMemberUpdate_set_absent sm now u2 ue2 hu] at ht
      obtain rfl := Option.some.inj ht
      refine ⟨?_, ?_, ?_, ?_, ?_, ?_⟩
      · rcases sm with ⟨a, b, c, d, e, f, g, hh, i, j⟩
        simp [ServerMember.setUpdatedAt, ServerMember.UpdatedAt]
      · simp [setEntry, mergedPatchAbsent, bsonGet_bsonSet_self, bsonGet]
      · intro k hk
        simp [mergedPatchAbsent, bsonGet_bsonSet_ne _ _ _ _ hk, hu]
      · intro k hk
        simp [setEntry, mergedPatchAbsent, bsonGet_bsonSet_self, bsonGet, hu, Ne.symm hk]
      · intro hv
        simp only at hv
        simp [hv]
      · intro e hv
        simp only at hv
        simp [hv]
    · cases v with
      | doc m0 =>
        rw [serverMemberUpdate_set_doc sm now u2 ue2 m0 hu] at ht
        obtain rfl := Option.some.inj ht
        refine ⟨?_, ?_, ?_, ?_, ?_, ?_⟩
        · rcases sm with ⟨a, b, c, d, e, f, g, hh, i, j⟩
          simp [ServerMember.setUpdatedAt, ServerMember.UpdatedAt]
        · simp [setEntry, mergedPatch, bsonGet_bsonSet_self]
        · intro k hk
          simp [mergedPatch, bsonGet_bsonSet_ne _ _ _ _ hk]
        · intro k hk
          simp [setEntry, mergedPatch, bsonGet_bsonSet_self, hu,
            bsonGet_bsonSet_ne _ _ _ _ hk]
        · intro hv
          simp only at hv
          simp [hv]
        · intro e hv
          simp only at hv
          simp [hv]
      | str a => rw [serverMemberUpdate_set_not_doc sm now u2 ue2 _ hu rfl] at ht; simp at ht
      | int a => rw [serverMemberUpdate_set_not_doc sm now u2 ue2 _ hu rfl] at ht; simp at ht
      | time a => rw [serverMemberUpdate_set_not_doc sm now u2 ue2 _ hu rfl] at ht; simp at ht
      | boolean a =>
        rw [serverMemberUpdate_set_not_doc sm now u2 ue2 _ hu rfl] at ht; simp at ht
  · intro t ht
    rcases hu : bsonGet u3 "$set" with _ | v
    · rw [modelTemplateUpdate_set_absent mt now u3 ue3 hu] at ht
      obtain rfl := Option.some.inj ht
      refine ⟨?_, ?_, ?_, ?_, ?_, ?_⟩
      · rcases mt with ⟨a, b, c, d, e, f, g, hh⟩
        simp [ModelTemplate.setUpdatedAt, ModelTemplate.UpdatedAt]
      · simp [setEntry, mergedPatchAbsent, bsonGet_bsonSet_self, bsonGet]
      · intro k hk
        simp [mergedPatchAbsent, bsonGet_bsonSet_ne _ _ _ _ hk, hu]
      · intro k hk
        simp [setEntry, mergedPatchAbsent, bsonGet_bsonSet_self, bsonGet, hu, Ne.symm hk]
      · intro hv
        simp only at hv
        simp [hv]
      · intro e hv
        simp only at hv
        simp [hv]
    · cases v with
      | doc m0 =>
        rw [modelTemplateUpdate_set_doc mt now u3 ue3 m0 hu] at ht
        obtain rfl := Option.some.inj ht
        refine ⟨?_, ?_, ?_, ?_, ?_, ?_⟩
        · rcases mt with ⟨a, b, c, d, e, f, g, hh⟩
          simp [ModelTemplate.setUpdatedAt, ModelTemplate.UpdatedAt]
        · simp [setEntry, mergedPatch, bsonGet_bsonSet_self]
        · intro k hk
          simp [mergedPatch, bsonGet_bsonSet_ne _ _ _ _ hk]
        · intro k hk
          simp [setEntry, mergedPatch, bsonGet_bsonSet_self, hu,
            bsonGet_bsonSet_ne _ _ _ _ hk]
        · intro hv
          simp only at hv
          simp [hv]
        · intro e hv
          simp only at hv
          simp [hv]
      | str a => rw [modelTemplateUpdate_set_not_doc mt now u3 ue3 _ hu rfl] at ht; simp at ht
      | int a => rw [modelTemplateUpdate_set_not_doc mt now u3 ue3 _ hu rfl] at ht; simp at ht
      | time a => rw [modelTemplateUpdate_set_not_doc mt now u3 ue3 _ hu rfl] at ht; simp at ht
      | boolean a =>
        rw [modelTemplateUpdate_set_not_doc mt now u3 ue3 _ hu rfl] at ht; simp at ht

/-- Witness for C7 at concrete inputs: updating the valid Server
`⟨"i","d",1,1⟩` at time 2 with patch `{"$set": {"code": "A2"}}` sets
UpdatedAt to 2, merges `updated_at` into `$set` while keeping the `code`
assignment, leaves other patch keys untouched, and issues exactly one
UpdateByID with the merged patch. -/
theorem update_merges_timestamp_into_set_witness :
    Server.update ⟨"i", "d", 1, 1⟩ 2
      [("$set", BsonValue.doc [("code", BsonValue.str "A2")])] none = some serverUpdateOkRes ∧
    serverUpdateOkRes.1.UpdatedAt = 2 ∧
    setEntry serverUpdateOkRes.2.1 "updated_at" = some (BsonValue.time 2) ∧
    bsonGet serverUpdateOkRes.2.1 "$inc" =
      bsonGet [("$set", BsonValue.doc [("code", BsonValue.str "A2")])] "$inc" ∧
    setEntry serverUpdateOkRes.2.1 "code" =
      setEntry [("$set", BsonValue.doc [("code", BsonValue.str "A2")])] "code" ∧
    serverUpdateOkRes.2.2.1 = none ∧
    serverUpdateOkRes.2.2.2 =
      [StoreOp.updateById serverUpdateOkRes.1.ID serverUpdateOkRes.2.1] := by
  have h := (update_merges_timestamp_into_set ⟨"i", "d", 1, 1⟩ zeroServerMember
    zeroModelTemplate 2 [("$set", BsonValue.doc [("code", BsonValue.str "A2")])] [] []
    none none none).1 serverUpdateOkRes rfl
  have hso := h.2.2.2.2.1 (by decide)
  exact ⟨rfl, h.1, h.2.1, h.2.2.1 "$inc" (by decide), h.2.2.2.1 "code" (by decide),
    hso.1, hso.2⟩

lemma append_data_getElem (A k : String) (n : Nat) (hn : n < A.data.length) :
    (A ++ k).data[n]? = A.data[n]? := by
  rw [String.data_append, List.getElem?_append_left hn]

lemma append3_data_getElem (A k B v : String) (n : Nat) (hn : n < A.data.length) :
    (A ++ k ++ B ++ v).data[n]? = A.data[n]? := by
  rw [String.data_append, String.data_append, String.data_append]
  have l1 : n < (A.data ++ k.data).length := by rw [List.length_append]; omega
  have l2 : n < ((A.data ++ k.data) ++ B.data).length := by
    rw [List.length_append, List.length_append]; omega
  rw [List.getElem?_append_left l2, List.getElem?_append_left l1,
    List.getElem?_append_left hn]

lemma serverCacheKey_char21 (k v : String) : (serverCacheKey k v).data[21]? = some 's' := by
  have h : serverCacheKey k v = "main:badpetbot:servers:" ++ k ++ ":" ++ v := rfl
  rw [h, append3_data_getElem _ _ _ _ _ (by decide)]
  decide

lemma serverMemberCacheKey_char21 (k v : String) :
    (serverMemberCacheKey k v).data[21]? = some '_' := by
  have h : serverMemberCacheKey k v = "main:badpetbot:server_members:" ++ k ++ ":" ++ v := rfl
  rw [h, append3_data_getElem _ _ _ _ _ (by decide)]
  decide

lemma modelTemplateCacheKey_char21 (k v : String) :
    (modelTemplateCacheKey k v).data[21]? = some 't' := by
  have h : modelTemplateCacheKey k v = "main:badpetbot:model_templates:" ++ k ++ ":" ++ v := rfl
  rw [h, append3_data_getElem _ _ _ _ _ (by decide)]
  decide

lemma serverCacheKey_char0 (k v : String) : (serverCacheKey k v).data[0]? = some 'm' := by
  have h : serverCacheKey k v = "main:badpetbot:servers:" ++ k ++ ":" ++ v := rfl
  rw [h, append3_data_getElem _ _ _ _ _ (by decide)]
  decide

lemma serverMemberCacheKey_char0 (k v : String) :
    (serverMemberCacheKey k v).data[0]? = some 'm' := by
  have h : serverMemberCacheKey k v = "main:badpetbot:server_members:" ++ k ++ ":" ++ v := rfl
  rw [h, append3_data_getElem _ _ _ _ _ (by decide)]
  decide

lemma modelTemplateCacheKey_char0 (k v : String) :
    (modelTemplateCacheKey k v).data[0]? = some 'm' := by
  have h : modelTemplateCacheKey k v = "main:badpetbot:model_templates:" ++ k ++ ":" ++ v := rfl
  rw [h, append3_data_getElem _ _ _ _ _ (by decide)]
  decide

lemma negKey_char0 (k : String) : ("neg:" ++ k).data[0]? = some 'n' := by
  rw [append_data_getElem _ _ _ (by decide)]
  decide

lemma negKey_ne_serverCacheKey (k' key value : String) :
    "neg:" ++ k' ≠ serverCacheKey key value := by
  intro h
  have h2 := congrArg (fun s => s.data[0]?) h
  simp only [negKey_char0, serverCacheKey_char0] at h2
  exact absurd h2 (by decide)

lemma negKey_ne_serverMemberCacheKey (k' key value : String) :
    "neg:" ++ k' ≠ serverMemberCacheKey key value := by
  intro h
  have h2 := congrArg (fun s => s.data[0]?) h
  simp only [negKey_char0, serverMemberCacheKey_char0] at h2
  exact absurd h2 (by decide)

lemma negKey_ne_modelTemplateCacheKey (k' key value : String) :
    "neg:" ++ k' ≠ modelTemplateCacheKey key value := by
  intro h
  have h2 := congrArg (fun s => s.data[0]?) h
  simp only [negKey_char0, modelTemplateCacheKey_char0] at h2
  exact absurd h2 (by decide)

lemma cacheGetServer_false_tasks (env : CacheEnv Server) (key value : String) :
    ∀ t ∈ (CacheGetServer env key value false).tasks,
      ∃ w, t = CacheTask.fillCache (serverCacheKey key value) w := by
  intro t ht
  rcases hg : env.redisGet (serverCacheKey key value) with e | r
  · simp [CacheGetServer, cacheGetServerTail, hg] at ht
  · by_cases hr : r = ""
    · subst hr
      rcases hq : (env.findOne key value).2 with _ | e2
      · simp [CacheGetServer, cacheGetServerTail, hg, hq] at ht
      · simp [CacheGetServer, cacheGetServerTail, hg, hq] at ht
        exact ⟨(env.findOne key value).1, ht⟩
    · simp [CacheGetServer, cacheGetServerTail, hg, hr] at ht

lemma cacheGetServerMember_false_tasks (env : CacheEnv ServerMember) (key value : String) :
    ∀ t ∈ (CacheGetServerMember env key value false).tasks,
      ∃ w, t = CacheTask.fillCache (serverMemberCacheKey key value) w := by
  intro t ht
  rcases hg : env.redisGet (serverMemberCacheKey key value) with e | r
  · simp [CacheGetServerMember, cacheGetServerMemberTail, hg] at ht
  · by_cases hr : r = ""
    · subst hr
      rcases hq : (env.findOne key value).2 with _ | e2
      · simp [CacheGetServerMember, cacheGetServerMemberTail, hg, hq] at ht
      · simp [CacheGetServerMember, cacheGetServerMemberTail, hg, hq] at ht
        exact ⟨(env.findOne key value).1, ht⟩
    · simp [CacheGetServerMember, cacheGetServerMemberTail, hg, hr] at ht

lemma cacheGetModelTemplate_false_tasks (env : CacheEnv ModelTemplate) (key value : String) :
    ∀ t ∈ (CacheGetModelTemplate env key value false).tasks,
      ∃ w, t = CacheTask.fillCache (modelTemplateCacheKey key value) w := by
  intro t ht
  rcases hg : env.redisGet (modelTemplateCacheKey key value) with e | r
  · simp [CacheGetModelTemplate, cacheGetModelTemplateTail, hg] at ht
  · by_cases hr : r = ""
    · subst hr
      rcases hq : (env.findOne key value).2 with _ | e2
      · simp [CacheGetModelTemplate, cacheGetModelTemplateTail, hg, hq] at ht
      · simp [CacheGetModelTemplate, cacheGetModelTemplateTail, hg, hq] at ht
        exact ⟨(env.findOne key value).1, ht⟩
    · simp [CacheGetModelTemplate, cacheGetModelTemplateTail, hg, hr] at ht

/-- C2: For every call to CacheGetServer / CacheGetServerMember /
CacheGetModelTemplate, if a cache-client read of the negative-cache entry or
of the positive-cache entry returns an error, the call returns that error
immediately with a nil entity and does not fall through to a store query: a
cache read error is never treated as a cache miss. -/
theorem cacheGet_cache_read_error_propagates
    (envS : CacheEnv Server) (envM : CacheEnv ServerMember) (envT : CacheEnv ModelTemplate)
    (key value : String) (e : GoError) :
    (envS.redisGet ("neg:" ++ serverCacheKey key value) = .error e →
      CacheGetServer envS key value true =
        ⟨none, some e, ["neg:" ++ serverCacheKey key value], [], []⟩) ∧
    (∀ negCache, (negCache = true →
        envS.redisGet ("neg:" ++ serverCacheKey key value) = .ok "") →
      envS.redisGet (serverCacheKey key value) = .error e →
      (CacheGetServer envS key value negCache).entity = none ∧
      (CacheGetServer envS key value negCache).error = some e ∧
      (CacheGetServer envS key value negCache).queries = [] ∧
      (CacheGetServer envS key value negCache).tasks = []) ∧
    (envM.redisGet ("neg:" ++ serverMemberCacheKey key value) = .error e →
      CacheGetServerMember envM key value true =
        ⟨none, some e, ["neg:" ++ serverMemberCacheKey key value], [], []⟩) ∧
    (∀ negCache, (negCache = true →
        envM.redisGet ("neg:" ++ serverMemberCacheKey key value) = .ok "") →
      envM.redisGet (serverMemberCacheKey key value) = .error e →
      (CacheGetServerMember envM key value negCache).entity = none ∧
      (CacheGetServerMember envM key value negCache).error = some e ∧
      (CacheGetServerMember envM key value negCache).queries = [] ∧
      (CacheGetServerMember envM key value negCache).tasks = []) ∧
    (envT.redisGet ("neg:" ++ modelTemplateCacheKey key value) = .error e →
      CacheGetModelTemplate envT key value true =
        ⟨none, some e, ["neg:" ++ modelTemplateCacheKey key value], [], []⟩) ∧
    (∀ negCache, (negCache = true →
        envT.redisGet ("neg:" ++ modelTemplateCacheKey key value) = .ok "") →
      envT.redisGet (modelTemplateCacheKey key value) = .error e →
      (CacheGetModelTemplate envT key value negCache).entity = none ∧
      (CacheGetModelTemplate envT key value negCache).error = some e ∧
      (CacheGetModelTemplate envT key value negCache).queries = [] ∧
      (CacheGetModelTemplate envT key value negCache).tasks = []) := by
  refine ⟨?_, ?_, ?_, ?_, ?_, ?_⟩
  · intro h
    simp [CacheGetServer, h]
  · intro negCache hneg hpos
    cases negCache with
    | false => simp [CacheGetServer, cacheGetServerTail, hpos]
    | true => simp [CacheGetServer, cacheGetServerTail, hneg rfl, hpos]
  · intro h
    simp [CacheGetServerMember, h]
  · intro negCache hneg hpos
    cases negCache with
    | false => simp [CacheGetServerMember, cacheGetServerMemberTail, hpos]
    | true => simp [CacheGetServerMember, cacheGetServerMemberTail, hneg rfl, hpos]
  · intro h
    simp [CacheGetModelTemplate, h]
  · intro negCache hneg hpos
    cases negCache with
    | false => simp [CacheGetModelTemplate, cacheGetModelTemplateTail, hpos]
    | true => simp [CacheGetModelTemplate, cacheGetModelTemplateTail, hneg rfl, hpos]

/-- Witness for C2 at concrete environments: with the cache client down the
negative-cache read error is returned as-is with no store query; with only
the positive-cache read failing, that error is returned with no store query. -/
theorem cacheGet_cache_read_error_propagates_witness :
    CacheGetServer cacheDownEnvS "k" "v" true =
      ⟨none, some (GoError.cache "down"), ["neg:" ++ serverCacheKey "k" "v"], [], []⟩ ∧
    CacheGetServerMember cacheDownEnvM "k" "v" true =
      ⟨none, some (GoError.cache "down"), ["neg:" ++ serverMemberCacheKey "k" "v"], [], []⟩ ∧
    CacheGetModelTemplate cacheDownEnvT "k" "v" true =
      ⟨none, some (GoError.cache "down"), ["neg:" ++ modelTemplateCacheKey "k" "v"], [], []⟩ ∧
    (CacheGetServer posDownEnvS "k" "v" true).error = some (GoError.cache "down") ∧
    (CacheGetServer posDownEnvS "k" "v" true).queries = [] ∧
    (CacheGetServerMember posDownEnvM "k" "v" true).error = some (GoError.cache "down") ∧
    (CacheGetServerMember posDownEnvM "k" "v" true).queries = [] ∧
    (CacheGetModelTemplate posDownEnvT "k" "v" true).error = some (GoError.cache "down") ∧
    (CacheGetModelTemplate posDownEnvT "k" "v" true).queries = [] := by
  have hS := cacheGet_cache_read_error_propagates cacheDownEnvS cacheDownEnvM cacheDownEnvT
    "k" "v" (GoError.cache "down")
  have hP := cacheGet_cache_read_error_propagates posDownEnvS posDownEnvM posDownEnvT
    "k" "v" (GoError.cache "down")
  have hPS := hP.2.1 true (fun _ => rfl) rfl
  have hPM := hP.2.2.2.1 true (fun _ => rfl) rfl
  have hPT := hP.2.2.2.2.2 true (fun _ => rfl) rfl
  exact ⟨hS.1 rfl, hS.2.2.1 rfl, hS.2.2.2.2.1 rfl, hPS.2.1, hPS.2.2.1, hPM.2.1, hPM.2.2.1,
    hPT.2.1, hPT.2.2.1⟩

/-- C3: For every call with negCache true in which the negative-cache read
succeeds and returns a non-empty value, the cache-get function returns
NotFound immediately with a nil entity; neither the positive cache nor the
document store is consulted (the only cache read is the negative key and no
store query is issued) and no background task is dispatched. -/
theorem cacheGet_neg_hit_returns_notFound
    (envS : CacheEnv Server) (envM : CacheEnv ServerMember) (envT : CacheEnv ModelTemplate)
    (key value : String) :
    (∀ r, envS.redisGet ("neg:" ++ serverCacheKey key value) = .ok r → r ≠ "" →
      CacheGetServer envS key value true =
        ⟨none, some GoError.notFound, ["neg:" ++ serverCacheKey key value], [], []⟩) ∧
    (∀ r, envM.redisGet ("neg:" ++ serverMemberCacheKey key value) = .ok r → r ≠ "" →
      CacheGetServerMember envM key value true =
        ⟨none, some GoError.notFound, ["neg:" ++ serverMemberCacheKey key value], [], []⟩) ∧
    (∀ r, envT.redisGet ("neg:" ++ modelTemplateCacheKey key value) = .ok r → r ≠ "" →
      CacheGetModelTemplate envT key value true =
        ⟨none, some GoError.notFound, ["neg:" ++ modelTemplateCacheKey key value], [], []⟩) := by
  refine ⟨?_, ?_, ?_⟩
  · intro r hneg hr
    simp [CacheGetServer, hneg, hr]
  · intro r hneg hr
    simp [CacheGetServerMember, hneg, hr]
  · intro r hneg hr
    simp [CacheGetModelTemplate, hneg, hr]

/-- Witness for C3 at concrete environments whose negative-cache entry holds
the sentinel `"neg"`: all three cache-gets return NotFound having read only
the negative key, with no store query and no background task. -/
theorem cacheGet_neg_hit_returns_notFound_witness :
    CacheGetServer negHitEnvS "k" "v" true =
      ⟨none, some GoError.notFound, ["neg:" ++ serverCacheKey "k" "v"], [], []⟩ ∧
    CacheGetServerMember negHitEnvM "k" "v" true =
      ⟨none, some GoError.notFound, ["neg:" ++ serverMemberCacheKey "k" "v"], [], []⟩ ∧
    CacheGetModelTemplate negHitEnvT "k" "v" true =
      ⟨none, some GoError.notFound, ["neg:" ++ modelTemplateCacheKey "k" "v"], [], []⟩ := by
  have h := cacheGet_neg_hit_returns_notFound negHitEnvS negHitEnvM negHitEnvT "k" "v"
  exact ⟨h.1 "neg" rfl (by decide), h.2.1 "neg" rfl (by decide), h.2.2 "neg" rfl (by decide)⟩

/-- C4: For every call with negCache true in which both cache checks miss
and the store query reports NotFound, the cache-get function dispatches an
asynchronous task that writes the sentinel `"neg"` under the `"neg:"`-keyed
negative-cache entry with the negative TTL and returns NotFound without
waiting for the write; and when negCache is false no negative-cache entry is
ever written: only positive fill tasks can be dispatched, a positive fill
writes exactly its own (positive) key, and no positive cache key lies in
the `"neg:"` namespace. Stated for all three entity types. -/
theorem cacheGet_store_notFound_fills_neg_cache
    (envS : CacheEnv Server) (envM : CacheEnv ServerMember) (envT : CacheEnv ModelTemplate)
    (key value : String) (srvS : Server) (srvM : ServerMember) (srvT : ModelTemplate) :
    (envS.redisGet ("neg:" ++ serverCacheKey key value) = .ok "" →
      envS.redisGet (serverCacheKey key value) = .ok "" →
      envS.findOne key value = (srvS, some GoError.notFound) →
      CacheGetServer envS key value true =
        ⟨some srvS, some GoError.notFound,
          ["neg:" ++ serverCacheKey key value, serverCacheKey key value],
          [(key, value)], [CacheTask.fillNegCache (serverCacheKey key value)]⟩) ∧
    fillNegCacheServer (serverCacheKey key value) =
      ⟨"neg:" ++ serverCacheKey key value, "neg", NegCacheTTL⟩ ∧
    (∀ k', CacheTask.fillNegCache k' ∉ (CacheGetServer envS key value false).tasks) ∧
    (∀ marshal w, (fillCacheServer marshal (serverCacheKey key value) w).key =
      serverCacheKey key value) ∧
    (∀ k', "neg:" ++ k' ≠ serverCacheKey key value) ∧
    (envM.redisGet ("neg:" ++ serverMemberCacheKey key value) = .ok "" →
      envM.redisGet (serverMemberCacheKey key value) = .ok "" →
      envM.findOne key value = (srvM, some GoError.notFound) →
      CacheGetServerMember envM key value true =
        ⟨some srvM, some GoError.notFound,
          ["neg:" ++ serverMemberCacheKey key value, serverMemberCacheKey key value],
          [(key, value)], [CacheTask.fillNegCache (serverMemberCacheKey key value)]⟩) ∧
    fillNegCacheServerMember (serverMemberCacheKey key value) =
      ⟨"neg:" ++ serverMemberCacheKey key value, "neg", NegCacheTTL⟩ ∧
    (∀ k', CacheTask.fillNegCache k' ∉ (CacheGetServerMember envM key value false).tasks) ∧
    (∀ marshal w, (fillCacheServerMember marshal (serverMemberCacheKey key value) w).key =
      serverMemberCacheKey key value) ∧
    (∀ k', "neg:" ++ k' ≠ serverMemberCacheKey key value) ∧
    (envT.redisGet ("neg:" ++ modelTemplateCacheKey key value) = .ok "" →
      envT.redisGet (modelTemplateCacheKey key value) = .ok "" →
      envT.findOne key value = (srvT, some GoError.notFound) →
      CacheGetModelTemplate envT key value true =
        ⟨some srvT, some GoError.notFound,
          ["neg:" ++ modelTemplateCacheKey key value, modelTemplateCacheKey key value],
          [(key, value)], [CacheTask.fillNegCache (modelTemplateCacheKey key value)]⟩) ∧
    fillNegCacheModelTemplate (modelTemplateCacheKey key value) =
      ⟨"neg:" ++ modelTemplateCacheKey key value, "neg", NegCacheTTL⟩ ∧
    (∀ k', CacheTask.fillNegCache k' ∉ (CacheGetModelTemplate envT key value false).tasks) ∧
    (∀ marshal w, (fillCacheModelTemplate marshal (modelTemplateCacheKey key value) w).key =
      modelTemplateCacheKey key value) ∧
    (∀ k', "neg:" ++ k' ≠ modelTemplateCacheKey key value) := by
  refine ⟨?_, rfl, ?_, fun _ _ => rfl, fun k' => negKey_ne_serverCacheKey k' key value,
    ?_, rfl, ?_, fun _ _ => rfl, fun k' => negKey_ne_serverMemberCacheKey k' key value,
    ?_, rfl, ?_, fun _ _ => rfl, fun k' => negKey_ne_modelTemplateCacheKey k' key value⟩
  · intro hneg hpos hfind
    simp [CacheGetServer, cacheGetServerTail, hneg, hpos, hfind]
  · intro k' hmem
    obtain ⟨w, hw⟩ := cacheGetServer_false_tasks envS key value _ hmem
    exact CacheTask.noConfusion hw
  · intro hneg hpos hfind
    simp [CacheGetServerMember, cacheGetServerMemberTail, hneg, hpos, hfind]
  · intro k' hmem
    obtain ⟨w, hw⟩ := cacheGetServerMember_false_tasks envM key value _ hmem
    exact CacheTask.noConfusion hw
  · intro hneg hpos hfind
    simp [CacheGetModelTemplate, cacheGetModelTemplateTail, hneg, hpos, hfind]
  · intro k' hmem
    obtain ⟨w, hw⟩ := cacheGetModelTemplate_false_tasks envT key value _ hmem
    exact CacheTask.noConfusion hw

/-- Witness for C4 at concrete environments with an empty cache and a store
reporting NotFound: with negCache true each cache-get dispatches exactly the
negative-fill task for its key and returns NotFound; with negCache false no
negative-fill task is dispatched. -/
theorem cacheGet_store_notFound_fills_neg_cache_witness :
    CacheGetServer notFoundEnvS "k" "v" true =
      ⟨some zeroServer, some GoError.notFound,
        ["neg:" ++ serverCacheKey "k" "v", serverCacheKey "k" "v"],
        [("k", "v")], [CacheTask.fillNegCache (serverCacheKey "k" "v")]⟩ ∧
    fillNegCacheServer (serverCacheKey "k" "v") =
      ⟨"neg:" ++ serverCacheKey "k" "v", "neg", NegCacheTTL⟩ ∧
    CacheTask.fillNegCache "x" ∉ (CacheGetServer notFoundEnvS "k" "v" false).tasks ∧
    CacheGetServerMember notFoundEnvM "k" "v" true =
      ⟨some zeroServerMember, some GoError.notFound,
        ["neg:" ++ serverMemberCacheKey "k" "v", serverMemberCacheKey "k" "v"],
        [("k", "v")], [CacheTask.fillNegCache (serverMemberCacheKey "k" "v")]⟩ ∧
    CacheGetModelTemplate notFoundEnvT "k" "v" true =
      ⟨some zeroModelTemplate, some GoError.notFound,
        ["neg:" ++ modelTemplateCacheKey "k" "v", modelTemplateCacheKey "k" "v"],
        [("k", "v")], [CacheTask.fillNegCache (modelTemplateCacheKey "k" "v")]⟩ ∧
    "neg:" ++ "x" ≠ serverCacheKey "k" "v" := by
  have h := cacheGet_store_notFound_fills_neg_cache notFoundEnvS notFoundEnvM notFoundEnvT
    "k" "v" zeroServer zeroServerMember zeroModelTemplate
  exact ⟨h.1 rfl rfl rfl, h.2.1, h.2.2.1 "x", h.2.2.2.2.2.1 rfl rfl rfl,
    h.2.2.2.2.2.2.2.2.2.2.1 rfl rfl rfl, h.2.2.2.2.1 "x"⟩

/-- C1 concerns the population of the positive cache after a successful
store fallback. The code refutes it: with an empty cache and a store query
that returns an entity with no error, all three cache-get functions return
the entity with a nil error but dispatch no background task at all (the
fill condition in the source is `err != nil`, while its own comment and the
spec require the fill to happen when there is no error). This theorem
evaluates the code at such inputs: the task list is empty. -/
theorem cacheGet_store_hit_dispatches_no_population :
    (CacheGetServer okStoreEnvS "discord_id" "42" false).error = none ∧
    (CacheGetServer okStoreEnvS "discord_id" "42" false).entity = some zeroServer ∧
    (CacheGetServer okStoreEnvS "discord_id" "42" false).queries = [("discord_id", "42")] ∧
    (CacheGetServer okStoreEnvS "discord_id" "42" false).tasks = [] ∧
    (CacheGetServer okStoreEnvS "discord_id" "42" true).tasks = [] ∧
    (CacheGetServerMember okStoreEnvM "discord_member_id" "m" false).error = none ∧
    (CacheGetServerMember okStoreEnvM "discord_member_id" "m" false).entity =
      some zeroServerMember ∧
    (CacheGetServerMember okStoreEnvM "discord_member_id" "m" false).tasks = [] ∧
    (CacheGetModelTemplate okStoreEnvT "_id" "x" false).error = none ∧
    (CacheGetModelTemplate okStoreEnvT "_id" "x" false).entity = some zeroModelTemplate ∧
    (CacheGetModelTemplate okStoreEnvT "_id" "x" false).tasks = [] :=
  ⟨rfl, rfl, rfl, rfl, rfl, rfl, rfl, rfl, rfl, rfl, rfl⟩

/-- C8: Cache key construction is the deterministic join with `":"` of the
client name, database name, collection name, lookup field name and lookup
value; and for the three entity types (collections `servers`,
`server_members`, `model_templates`) no two distinct entity types ever
produce the same cache key, for any lookup fields and values. -/
theorem cache_key_deterministic_and_type_disjoint (k1 v1 k2 v2 : String) :
    serverCacheKey k1 v1 =
      ServerClientName ++ ":" ++ ServerDBName ++ ":" ++ ServerColName ++ ":" ++ k1 ++ ":" ++ v1 ∧
    serverMemberCacheKey k1 v1 =
      ServerMemberClientName ++ ":" ++ ServerMemberDBName ++ ":" ++ ServerMemberColName ++
        ":" ++ k1 ++ ":" ++ v1 ∧
    modelTemplateCacheKey k1 v1 =
      ModelTemplateClientName ++ ":" ++ ModelTemplateDBName ++ ":" ++ ModelTemplateColName ++
        ":" ++ k1 ++ ":" ++ v1 ∧
    serverCacheKey k1 v1 ≠ serverMemberCacheKey k2 v2 ∧
    serverCacheKey k1 v1 ≠ modelTemplateCacheKey k2 v2 ∧
    serverMemberCacheKey k1 v1 ≠ modelTemplateCacheKey k2 v2 := by
  refine ⟨rfl, rfl, rfl, ?_, ?_, ?_⟩
  · intro h
    have h2 := congrArg (fun s => s.data[21]?) h
    simp only [serverCacheKey_char21, serverMemberCacheKey_char21] at h2
    exact absurd h2 (by decide)
  · intro h
    have h2 := congrArg (fun s => s.data[21]?) h
    simp only [serverCacheKey_char21, modelTemplateCacheKey_char21] at h2
    exact absurd h2 (by decide)
  · intro h
    have h2 := congrArg (fun s => s.data[21]?) h
    simp only [serverMemberCacheKey_char21, modelTemplateCacheKey_char21] at h2
    exact absurd h2 (by decide)

/-- Witness for C8 at concrete lookup fields and values: the three cache
keys for field `"k"` and value `"v"` are pairwise distinct. -/
theorem cache_key_deterministic_and_type_disjoint_witness :
    serverCacheKey "k" "v" ≠ serverMemberCacheKey "k" "v" ∧
    serverCacheKey "k" "v" ≠ modelTemplateCacheKey "k" "v" ∧
    serverMemberCacheKey "k" "v" ≠ modelTemplateCacheKey "k" "v" :=
  ⟨(cache_key_deterministic_and_type_disjoint "k" "v" "k" "v").2.2.2.1,
    (cache_key_deterministic_and_type_disjoint "k" "v" "k" "v").2.2.2.2.1,
    (cache_key_deterministic_and_type_disjoint "k" "v" "k" "v").2.2.2.2.2⟩

end GoModel
